import Mathlib

/-!
Verification of the SWC fantasy-football read-only query API
(`src/main.py`).  The endpoint layer is embedded directly from
`main.py`; the query layer (`crud`) and the response schemas
(`schemas`) are not part of the source tree, so they are modelled
from the specification (section 4.1), as marked on each definition.
Dates are modelled as day ordinals (natural numbers).
-/

namespace SWC

/-- A player record (`schemas.Player`).  Modelled from the spec: identity,
first name, last name, last-changed timestamp; descriptive attributes not
used in filtering are omitted. -/
structure Player where
  player_id : Int
  first_name : String
  last_name : String
  last_changed_date : Nat
  deriving Repr, DecidableEq

/-- A performance record.  Modelled from the spec: identity, reference to a
player, a scoring period identifier, a fantasy point value, last-changed
timestamp. -/
structure Performance where
  performance_id : Int
  player_id : Int
  week_number : String
  fantasy_points : Int
  last_changed_date : Nat
  deriving Repr, DecidableEq

/-- A league record.  Modelled from the spec: identity, name, last-changed
timestamp. -/
structure League where
  league_id : Int
  league_name : String
  last_changed_date : Nat
  deriving Repr, DecidableEq

/-- A team record.  Modelled from the spec: identity, name, reference to a
league, last-changed timestamp. -/
structure Team where
  team_id : Int
  team_name : String
  league_id : Int
  last_changed_date : Nat
  deriving Repr, DecidableEq

/-- `schemas.Counts`: the aggregate returned by `/v0/counts/`. -/
structure Counts where
  league_count : Nat
  team_count : Nat
  player_count : Nat
  deriving Repr, DecidableEq

/-- The external relational store: one collection per entity type. -/
structure Database where
  players : List Player
  performances : List Performance
  leagues : List League
  teams : List Team
  deriving Repr, DecidableEq

/-- A descriptor of one query-layer (`crud`) call, recording the operation
and the arguments it received. -/
inductive QueryCall where
  | getPlayers (skip limit : Int) (min_last_changed_date : Option Nat)
      (first_name last_name : Option String)
  | getPlayer (player_id : Int)
  | getPerformances (skip limit : Int) (min_last_changed_date : Option Nat)
  | getLeague (league_id : Int)
  | getLeagues (skip limit : Int) (min_last_changed_date : Option Nat)
      (league_name : Option String)
  | getTeams (skip limit : Int) (min_last_changed_date : Option Nat)
      (team_name : Option String) (league_id : Option Int)
  | getLeagueCount
  | getTeamCount
  | getPlayerCount
  deriving Repr, DecidableEq

/-- An absent optional string filter constrains nothing; a present one is an
exact match. -/
def matchesOptStr (f : Option String) (s : String) : Bool :=
  match f with
  | none => true
  | some v => s == v

/-- An absent optional integer filter constrains nothing; a present one is an
equality constraint. -/
def matchesOptInt (f : Option Int) (n : Int) : Bool :=
  match f with
  | none => true
  | some v => n == v

/-- An absent minimum date constrains nothing; a present one is an inclusive
lower bound on the last-changed timestamp. -/
def matchesMinDate (f : Option Nat) (d : Nat) : Bool :=
  match f with
  | none => true
  | some m => m ≤ d

/-- Sort a collection by an integer key, ascending (the `ORDER BY id`
of the query layer). -/
def sortByKey (key : α → Int) (xs : List α) : List α :=
  xs.insertionSort (fun a b => key a ≤ key b)

/-- Discard `skip` records from the front, then keep at most `limit`. -/
def paginate (skip limit : Int) (xs : List α) : List α :=
  (xs.drop skip.toNat).take limit.toNat

/-- The matching records of a list query, in identity-ascending order,
before pagination. -/
def sortedMatching (pred : α → Bool) (key : α → Int) (rows : List α) : List α :=
  sortByKey key (rows.filter pred)

/-- The shared list-query pipeline of the query layer.  Modelled from the
spec: filter by the conjunction of the provided filters, sort by primary
identity ascending, then apply `skip` and `limit`. -/
def listQuery (pred : α → Bool) (key : α → Int) (rows : List α)
    (skip limit : Int) : List α :=
  paginate skip limit (sortedMatching pred key rows)

namespace crud

/-- The conjunction of the optional player filters. -/
def playerPred (min_last_changed_date : Option Nat)
    (first_name last_name : Option String) (p : Player) : Bool :=
  matchesMinDate min_last_changed_date p.last_changed_date
    && matchesOptStr first_name p.first_name
    && matchesOptStr last_name p.last_name

/-- The optional performance filter (date only). -/
def performancePred (min_last_changed_date : Option Nat) (p : Performance) : Bool :=
  matchesMinDate min_last_changed_date p.last_changed_date

/-- The conjunction of the optional league filters. -/
def leaguePred (min_last_changed_date : Option Nat)
    (league_name : Option String) (l : League) : Bool :=
  matchesMinDate min_last_changed_date l.last_changed_date
    && matchesOptStr league_name l.league_name

/-- The conjunction of the optional team filters. -/
def teamPred (min_last_changed_date : Option Nat) (team_name : Option String)
    (league_id : Option Int) (t : Team) : Bool :=
  matchesMinDate min_last_changed_date t.last_changed_date
    && matchesOptStr team_name t.team_name
    && matchesOptInt league_id t.league_id

/-- Modelled from the spec: `crud.get_players` (the module is not in the
source tree) — filter players by the provided optional filters (AND),
sort by player id ascending, apply skip and limit.  Also returns the
query-call descriptor for this store read. -/
def get_players (db : Database) (skip limit : Int)
    (min_last_changed_date : Option Nat) (first_name last_name : Option String) :
    List Player × List QueryCall :=
  (listQuery (playerPred min_last_changed_date first_name last_name)
      (fun p => p.player_id) db.players skip limit,
    [QueryCall.getPlayers skip limit min_last_changed_date first_name last_name])

/-- Modelled from the spec: `crud.get_player` — single-entity lookup by id;
returns the matching player or an explicit not-found signal (`none`). -/
def get_player (db : Database) (player_id : Int) :
    Option Player × List QueryCall :=
  (db.players.find? (fun p => p.player_id == player_id),
    [QueryCall.getPlayer player_id])

/-- Modelled from the spec: `crud.get_performances`. -/
def get_performances (db : Database) (skip limit : Int)
    (min_last_changed_date : Option Nat) :
    List Performance × List QueryCall :=
  (listQuery (performancePred min_last_changed_date)
      (fun p => p.performance_id) db.performances skip limit,
    [QueryCall.getPerformances skip limit min_last_changed_date])

/-- Modelled from the spec: `crud.get_league` — single-entity lookup by id;
returns the matching league or an explicit not-found signal (`none`). -/
def get_league (db : Database) (league_id : Int) :
    Option League × List QueryCall :=
  (db.leagues.find? (fun l => l.league_id == league_id),
    [QueryCall.getLeague league_id])

/-- Modelled from the spec: `crud.get_leagues`. -/
def get_leagues (db : Database) (skip limit : Int)
    (min_last_changed_date : Option Nat) (league_name : Option String) :
    List League × List QueryCall :=
  (listQuery (leaguePred min_last_changed_date league_name)
      (fun l => l.league_id) db.leagues skip limit,
    [QueryCall.getLeagues skip limit min_last_changed_date league_name])

/-- Modelled from the spec: `crud.get_teams`. -/
def get_teams (db : Database) (skip limit : Int)
    (min_last_changed_date : Option Nat) (team_name : Option String)
    (league_id : Option Int) : List Team × List QueryCall :=
  (listQuery (teamPred min_last_changed_date team_name league_id)
      (fun t => t.team_id) db.teams skip limit,
    [QueryCall.getTeams skip limit min_last_changed_date team_name league_id])

/-- Modelled from the spec: `crud.get_league_count` — unfiltered cardinality
of the league collection. -/
def get_league_count (db : Database) : Nat × List QueryCall :=
  (db.leagues.length, [QueryCall.getLeagueCount])

/-- Modelled from the spec: `crud.get_team_count` — unfiltered cardinality
of the team collection. -/
def get_team_count (db : Database) : Nat × List QueryCall :=
  (db.teams.length, [QueryCall.getTeamCount])

/-- Modelled from the spec: `crud.get_player_count` — unfiltered cardinality
of the player collection. -/
def get_player_count (db : Database) : Nat × List QueryCall :=
  (db.players.length, [QueryCall.getPlayerCount])

end crud

/-- An HTTP error raised by an endpoint (`HTTPException`). -/
structure HTTPError where
  status_code : Nat
  detail : String
  deriving Repr, DecidableEq

/-- The outcome of an endpoint handler: a successful response body or an
`HTTPException`. -/
inductive HTTPResult (α : Type) where
  | ok (a : α)
  | error (e : HTTPError)
  deriving Repr, DecidableEq

/-- The body of the root health-check response. -/
structure RootMessage where
  message : String
  deriving Repr, DecidableEq

/-- An endpoint handler: given the request-scoped session (the database),
produce a result or an `HTTPException`, together with the query-layer calls
it issued. -/
abbrev Handler (α : Type) := Database → HTTPResult α × List QueryCall

/-- `read_players` from `main.py`: forwards its parameters unchanged to
`crud.get_players` and returns the list with HTTP 200. -/
def read_players (skip limit : Int) (minimum_last_changed_date : Option Nat)
    (first_name last_name : Option String) : Handler (List Player) :=
  fun db =>
    let r := crud.get_players db skip limit minimum_last_changed_date
      first_name last_name
    (HTTPResult.ok r.1, r.2)

/-- `read_player` from `main.py`: looks the player up by id and raises a 404
`HTTPException` with detail "Player not found" when absent. -/
def read_player (player_id : Int) : Handler Player :=
  fun db =>
    let r := crud.get_player db player_id
    match r.1 with
    | none => (HTTPResult.error ⟨404, "Player not found"⟩, r.2)
    | some p => (HTTPResult.ok p, r.2)

/-- `read_performances` from `main.py`. -/
def read_performances (skip limit : Int)
    (minimum_last_changed_date : Option Nat) : Handler (List Performance) :=
  fun db =>
    let r := crud.get_performances db skip limit minimum_last_changed_date
    (HTTPResult.ok r.1, r.2)

/-- `read_league` from `main.py`: looks the league up by id and raises a 404
`HTTPException` with detail "League not found" when absent. -/
def read_league (league_id : Int) : Handler League :=
  fun db =>
    let r := crud.get_league db league_id
    match r.1 with
    | none => (HTTPResult.error ⟨404, "League not found"⟩, r.2)
    | some l => (HTTPResult.ok l, r.2)

/-- `read_leagues` from `main.py`. -/
def read_leagues (skip limit : Int) (minimum_last_changed_date : Option Nat)
    (league_name : Option String) : Handler (List League) :=
  fun db =>
    let r := crud.get_leagues db skip limit minimum_last_changed_date league_name
    (HTTPResult.ok r.1, r.2)

/-- `read_teams` from `main.py`. -/
def read_teams (skip limit : Int) (minimum_last_changed_date : Option Nat)
    (team_name : Option String) (league_id : Option Int) : Handler (List Team) :=
  fun db =>
    let r := crud.get_teams db skip limit minimum_last_changed_date
      team_name league_id
    (HTTPResult.ok r.1, r.2)

/-- `get_count` from `main.py`: three query-layer count calls combined into
one `Counts` object. -/
def get_count : Handler Counts :=
  fun db =>
    let lc := crud.get_league_count db
    let tc := crud.get_team_count db
    let pc := crud.get_player_count db
    (HTTPResult.ok ⟨lc.1, tc.1, pc.1⟩, lc.2 ++ tc.2 ++ pc.2)

/-- A request-lifecycle event: acquiring the store session, issuing a query,
closing the session. -/
inductive Event where
  | openSession
  | query (q : QueryCall)
  | closeSession
  deriving Repr, DecidableEq

/-- The `get_db` dependency of `main.py` as it wraps a request: acquire the
session (`SessionLocal()`), run the handler, and close the session in a
`finally` block, so the close happens on the normal path and on the
exception path alike. -/
def get_db_run (handler : Handler α) (db : Database) :
    HTTPResult α × List Event :=
  let r := handler db
  (r.1, Event.openSession :: (r.2.map Event.query ++ [Event.closeSession]))

/-- The `root` endpoint of `main.py`: a constant payload, no `get_db`
dependency, hence no session events and no queries. -/
def root : RootMessage × List Event :=
  ({ message := "API health check successful" }, [])

/-- A FastAPI integer query parameter declaration: a default plus optional
bound constraints.  `main.py` declares `skip` and `limit` with no bounds. -/
structure IntParamSpec where
  default : Int
  ge : Option Int := none
  le : Option Int := none
  deriving Repr, DecidableEq

/-- The declared `skip` parameter: `Query(0, description=...)`, no bounds. -/
def skipParam : IntParamSpec := { default := 0 }

/-- The declared `limit` parameter: `Query(100, description=...)`, no
bounds. -/
def limitParam : IntParamSpec := { default := 100 }

/-- Request-boundary validation of an integer parameter: reject with a 422
only when a declared bound is violated. -/
def validateIntParam (spec : IntParamSpec) (v : Int) : Except Nat Int :=
  let geOk := match spec.ge with
    | none => true
    | some g => g ≤ v
  let leOk := match spec.le with
    | none => true
    | some l => v ≤ l
  if geOk && leOk then Except.ok v else Except.error 422

/-- A small concrete store used for witnesses and examples.  The players are
the example of the spec (ids 1, 2, 3; last names Smith, Jones, Smith),
deliberately listed out of identity order. -/
def exampleDb : Database where
  players := [⟨2, "Mike", "Jones", 5⟩, ⟨1, "John", "Smith", 5⟩,
    ⟨3, "Al", "Smith", 7⟩]
  performances := [⟨301, 1, "1", 12, 5⟩, ⟨302, 2, "1", 3, 6⟩]
  leagues := [⟨101, "Alpha", 5⟩]
  teams := [⟨201, "TeamA", 101, 5⟩, ⟨202, "TeamB", 101, 6⟩]

instance (key : α → Int) : IsTotal α (fun a b => key a ≤ key b) :=
  ⟨fun a b => Int.le_total (key a) (key b)⟩

instance (key : α → Int) : IsTrans α (fun a b => key a ≤ key b) :=
  ⟨fun _ _ _ hab hbc => Int.le_trans hab hbc⟩

theorem pred_of_mem_listQuery {pred : α → Bool} {key : α → Int} {rows : List α}
    {s l : Int} {x : α} (hx : x ∈ listQuery pred key rows s l) : pred x = true := by
  unfold listQuery paginate sortedMatching sortByKey at hx
  have h2 := List.mem_of_mem_drop (List.mem_of_mem_take hx)
  rw [List.mem_insertionSort] at h2
  exact (List.mem_filter.mp h2).2

theorem sortedMatching_length (pred : α → Bool) (key : α → Int) (rows : List α) :
    (sortedMatching pred key rows).length = (rows.filter pred).length := by
  unfold sortedMatching sortByKey
  exact List.length_insertionSort _ _

theorem listQuery_getElem? (pred : α → Bool) (key : α → Int) (rows : List α)
    (s l : Int) (i : Nat) (h : i < (listQuery pred key rows s l).length) :
    (listQuery pred key rows s l)[i]? = (sortedMatching pred key rows)[s.toNat + i]? := by
  unfold listQuery paginate at h ⊢
  simp only [List.length_take, List.length_drop] at h
  rw [List.getElem?_take_of_lt (by omega), List.getElem?_drop]

theorem listQuery_length (pred : α → Bool) (key : α → Int) (rows : List α)
    (s l : Int) (hs : 0 ≤ s) (hl : 0 ≤ l) :
    ((listQuery pred key rows s l).length : Int)
      = min l (max 0 (((rows.filter pred).length : Int) - s)) := by
  unfold listQuery paginate
  simp only [List.length_take, List.length_drop, sortedMatching_length]
  omega

theorem listQuery_of_no_match (pred : α → Bool) (key : α → Int) (rows : List α)
    (s l : Int) (h : rows.filter pred = []) : listQuery pred key rows s l = [] := by
  unfold listQuery paginate sortedMatching sortByKey
  rw [h]
  simp

theorem listQuery_sorted (pred : α → Bool) (key : α → Int) (rows : List α)
    (s l : Int) :
    (listQuery pred key rows s l).Sorted (fun a b => key a ≤ key b) := by
  have hs : (sortedMatching pred key rows).Sorted (fun a b => key a ≤ key b) :=
    List.sorted_insertionSort _ _
  exact List.Pairwise.sublist
    ((List.take_sublist _ _).trans (List.drop_sublist _ _)) hs

theorem listQuery_take_add (pred : α → Bool) (key : α → Int) (rows : List α)
    (N : Nat) :
    listQuery pred key rows 0 (N : Int) ++ listQuery pred key rows (N : Int) (N : Int)
      = (sortedMatching pred key rows).take (2 * N) := by
  unfold listQuery paginate
  have hN : ((N : Int)).toNat = N := by omega
  rw [hN]
  show ((sortedMatching pred key rows).drop (0 : Int).toNat).take N
      ++ ((sortedMatching pred key rows).drop N).take N = _
  rw [show ((0 : Int)).toNat = 0 from rfl, List.drop_zero, two_mul, List.take_add]

theorem sortedMatching_nodup {pred : α → Bool} {key : α → Int} {rows : List α}
    (hnd : rows.Nodup) : (sortedMatching pred key rows).Nodup := by
  unfold sortedMatching sortByKey
  exact (List.perm_insertionSort _ _).nodup_iff.mpr
    ((List.filter_sublist rows).nodup hnd)

theorem listQuery_pages_disjoint (pred : α → Bool) (key : α → Int)
    (rows : List α) (N : Nat) (hnd : rows.Nodup) :
    ∀ x ∈ listQuery pred key rows 0 (N : Int), x ∉ listQuery pred key rows (N : Int) (N : Int) := by
  have h2 : (sortedMatching pred key rows).Nodup := sortedMatching_nodup hnd
  have h3 : ((sortedMatching pred key rows).take N
      ++ (sortedMatching pred key rows).drop N).Nodup := by
    rw [List.take_append_drop]
    exact h2
  have h4 := (List.nodup_append.mp h3).2.2
  intro x hx hx2
  have hN : ((N : Int)).toNat = N := by omega
  have hx' : x ∈ (sortedMatching pred key rows).take N := by
    unfold listQuery paginate at hx
    rw [show ((0 : Int)).toNat = 0 from rfl, List.drop_zero, hN] at hx
    exact hx
  have hx2' : x ∈ (sortedMatching pred key rows).drop N := by
    unfold listQuery paginate at hx2
    rw [hN] at hx2
    exact List.mem_of_mem_take hx2
  exact h4 hx' hx2'

theorem listQuery_length_eq_window (pred : α → Bool) (key : α → Int)
    (rows : List α) (s l : Int) :
    (listQuery pred key rows s l).length
      = min l.toNat ((sortedMatching pred key rows).length - s.toNat) := by
  unfold listQuery paginate
  simp [List.length_take, List.length_drop]

theorem playerPred_some_date_iff (d : Nat) (fn ln : Option String) (p : Player) :
    crud.playerPred (some d) fn ln p = true
      ↔ (d ≤ p.last_changed_date ∧ crud.playerPred none fn ln p = true) := by
  simp [crud.playerPred, matchesMinDate, and_assoc]

theorem performancePred_some_date_iff (d : Nat) (p : Performance) :
    crud.performancePred (some d) p = true
      ↔ (d ≤ p.last_changed_date ∧ crud.performancePred none p = true) := by
  simp [crud.performancePred, matchesMinDate]

theorem leaguePred_some_date_iff (d : Nat) (lname : Option String) (l : League) :
    crud.leaguePred (some d) lname l = true
      ↔ (d ≤ l.last_changed_date ∧ crud.leaguePred none lname l = true) := by
  simp [crud.leaguePred, matchesMinDate]

theorem teamPred_some_date_iff (d : Nat) (tname : Option String)
    (lid : Option Int) (t : Team) :
    crud.teamPred (some d) tname lid t = true
      ↔ (d ≤ t.last_changed_date ∧ crud.teamPred none tname lid t = true) := by
  simp [crud.teamPred, matchesMinDate, and_assoc]

/-- C1: for every list operation and every combination of provided optional
filters, every returned record satisfies the conjunction of all provided
filters (no false positives), and the returned sequence is exactly the
`[skip, skip+limit)` window of the identity-ascending ordering of the
matching records — its length is exactly the length of that window and it
agrees with the window elementwise, so no matching record in the window is
omitted (no false negatives); on the three-player example of the spec,
list-players with last name "Smith" returns exactly the records with ids 1
and 3, in that order. -/
theorem list_filters_and_window (db : Database) (s l : Int) (md : Option Nat)
    (fn ln lname tname : Option String) (lid : Option Int) :
    ((∀ p ∈ (crud.get_players db s l md fn ln).1, crud.playerPred md fn ln p = true)
      ∧ ((crud.get_players db s l md fn ln).1).length
          = min l.toNat ((sortedMatching (crud.playerPred md fn ln) (fun p => p.player_id) db.players).length - s.toNat)
      ∧ ∀ i, i < ((crud.get_players db s l md fn ln).1).length →
        ((crud.get_players db s l md fn ln).1)[i]?
          = (sortedMatching (crud.playerPred md fn ln) (fun p => p.player_id) db.players)[s.toNat + i]?)
    ∧ ((∀ p ∈ (crud.get_performances db s l md).1, crud.performancePred md p = true)
      ∧ ((crud.get_performances db s l md).1).length
          = min l.toNat ((sortedMatching (crud.performancePred md) (fun p => p.performance_id) db.performances).length - s.toNat)
      ∧ ∀ i, i < ((crud.get_performances db s l md).1).length →
        ((crud.get_performances db s l md).1)[i]?
          = (sortedMatching (crud.performancePred md) (fun p => p.performance_id) db.performances)[s.toNat + i]?)
    ∧ ((∀ x ∈ (crud.get_leagues db s l md lname).1, crud.leaguePred md lname x = true)
      ∧ ((crud.get_leagues db s l md lname).1).length
          = min l.toNat ((sortedMatching (crud.leaguePred md lname) (fun x => x.league_id) db.leagues).length - s.toNat)
      ∧ ∀ i, i < ((crud.get_leagues db s l md lname).1).length →
        ((crud.get_leagues db s l md lname).1)[i]?
          = (sortedMatching (crud.leaguePred md lname) (fun x => x.league_id) db.leagues)[s.toNat + i]?)
    ∧ ((∀ t ∈ (crud.get_teams db s l md tname lid).1, crud.teamPred md tname lid t = true)
      ∧ ((crud.get_teams db s l md tname lid).1).length
          = min l.toNat ((sortedMatching (crud.teamPred md tname lid) (fun t => t.team_id) db.teams).length - s.toNat)
      ∧ ∀ i, i < ((crud.get_teams db s l md tname lid).1).length →
        ((crud.get_teams db s l md tname lid).1)[i]?
          = (sortedMatching (crud.teamPred md tname lid) (fun t => t.team_id) db.teams)[s.toNat + i]?)
    ∧ (crud.get_players exampleDb 0 100 none none (some "Smith")).1.map
        (fun p => p.player_id) = [1, 3] := by
  refine ⟨⟨fun p hp => pred_of_mem_listQuery hp, listQuery_length_eq_window _ _ _ _ _,
      fun i hi => listQuery_getElem? _ _ _ _ _ i hi⟩,
    ⟨fun p hp => pred_of_mem_listQuery hp, listQuery_length_eq_window _ _ _ _ _,
      fun i hi => listQuery_getElem? _ _ _ _ _ i hi⟩,
    ⟨fun x hx => pred_of_mem_listQuery hx, listQuery_length_eq_window _ _ _ _ _,
      fun i hi => listQuery_getElem? _ _ _ _ _ i hi⟩,
    ⟨fun t ht => pred_of_mem_listQuery ht, listQuery_length_eq_window _ _ _ _ _,
      fun i hi => listQuery_getElem? _ _ _ _ _ i hi⟩,
    by decide⟩

/-- Witness for C1: the window description evaluated at a concrete input. -/
theorem list_filters_and_window_witness :
    ((crud.get_players exampleDb 0 100 none none (some "Smith")).1)[0]?
      = (sortedMatching (crud.playerPred none none (some "Smith"))
          (fun p => p.player_id) exampleDb.players)[(0 : Int).toNat + 0]? :=
  (list_filters_and_window exampleDb 0 100 none none (some "Smith")
    none none none).1.2.2 0 (by decide)

/-- C2: for every list operation and all non-negative skip and limit, the
returned length is `min limit (max 0 (total_matching - skip))`; when nothing
matches, the result is the empty sequence (never null — the result type is a
list). -/
theorem list_length_formula (db : Database) (s l : Int) (md : Option Nat)
    (fn ln lname tname : Option String) (lid : Option Int)
    (hs : 0 ≤ s) (hl : 0 ≤ l) :
    ((((crud.get_players db s l md fn ln).1).length : Int)
        = min l (max 0 (((db.players.filter (crud.playerPred md fn ln)).length : Int) - s))
      ∧ (db.players.filter (crud.playerPred md fn ln) = []
          → (crud.get_players db s l md fn ln).1 = []))
    ∧ ((((crud.get_performances db s l md).1).length : Int)
        = min l (max 0 (((db.performances.filter (crud.performancePred md)).length : Int) - s))
      ∧ (db.performances.filter (crud.performancePred md) = []
          → (crud.get_performances db s l md).1 = []))
    ∧ ((((crud.get_leagues db s l md lname).1).length : Int)
        = min l (max 0 (((db.leagues.filter (crud.leaguePred md lname)).length : Int) - s))
      ∧ (db.leagues.filter (crud.leaguePred md lname) = []
          → (crud.get_leagues db s l md lname).1 = []))
    ∧ ((((crud.get_teams db s l md tname lid).1).length : Int)
        = min l (max 0 (((db.teams.filter (crud.teamPred md tname lid)).length : Int) - s))
      ∧ (db.teams.filter (crud.teamPred md tname lid) = []
          → (crud.get_teams db s l md tname lid).1 = [])) :=
  ⟨⟨listQuery_length _ _ _ _ _ hs hl, fun h => listQuery_of_no_match _ _ _ _ _ h⟩,
    ⟨listQuery_length _ _ _ _ _ hs hl, fun h => listQuery_of_no_match _ _ _ _ _ h⟩,
    ⟨listQuery_length _ _ _ _ _ hs hl, fun h => listQuery_of_no_match _ _ _ _ _ h⟩,
    ⟨listQuery_length _ _ _ _ _ hs hl, fun h => listQuery_of_no_match _ _ _ _ _ h⟩⟩

/-- Witness for C2: the length formula evaluated at a concrete input
(`skip = 1`, `limit = 1` over the three example players). -/
theorem list_length_formula_witness :
    (((crud.get_players exampleDb 1 1 none none none).1).length : Int)
      = min 1 (max 0 (((exampleDb.players.filter (crud.playerPred none none none)).length : Int) - 1)) :=
  (list_length_formula exampleDb 1 1 none none none none none none
    (by decide) (by decide)).1.1

/-- C3: for every list operation the matching result set is sorted by
primary identity ascending before skip and limit are applied (so every
returned page is identity-sorted), and two consecutive calls with
`skip=0,limit=N` then `skip=N,limit=N` against an unchanged data set are
contiguous — their concatenation is exactly the first `2N` matching records
in identity order — and disjoint whenever identities are unique in the
store. -/
theorem list_sorted_pagination_stable (db : Database) (N : Nat) (s l : Int)
    (md : Option Nat) (fn ln lname tname : Option String) (lid : Option Int) :
    (((crud.get_players db s l md fn ln).1).Sorted (fun a b => a.player_id ≤ b.player_id)
      ∧ (crud.get_players db 0 (N : Int) md fn ln).1
          ++ (crud.get_players db (N : Int) (N : Int) md fn ln).1
        = (sortedMatching (crud.playerPred md fn ln) (fun p => p.player_id) db.players).take (2 * N)
      ∧ ((db.players.map (fun p => p.player_id)).Nodup →
          ∀ x ∈ (crud.get_players db 0 (N : Int) md fn ln).1,
            x ∉ (crud.get_players db (N : Int) (N : Int) md fn ln).1))
    ∧ (((crud.get_performances db s l md).1).Sorted (fun a b => a.performance_id ≤ b.performance_id)
      ∧ (crud.get_performances db 0 (N : Int) md).1
          ++ (crud.get_performances db (N : Int) (N : Int) md).1
        = (sortedMatching (crud.performancePred md) (fun p => p.performance_id) db.performances).take (2 * N)
      ∧ ((db.performances.map (fun p => p.performance_id)).Nodup →
          ∀ x ∈ (crud.get_performances db 0 (N : Int) md).1,
            x ∉ (crud.get_performances db (N : Int) (N : Int) md).1))
    ∧ (((crud.get_leagues db s l md lname).1).Sorted (fun a b => a.league_id ≤ b.league_id)
      ∧ (crud.get_leagues db 0 (N : Int) md lname).1
          ++ (crud.get_leagues db (N : Int) (N : Int) md lname).1
        = (sortedMatching (crud.leaguePred md lname) (fun x => x.league_id) db.leagues).take (2 * N)
      ∧ ((db.leagues.map (fun x => x.league_id)).Nodup →
          ∀ x ∈ (crud.get_leagues db 0 (N : Int) md lname).1,
            x ∉ (crud.get_leagues db (N : Int) (N : Int) md lname).1))
    ∧ (((crud.get_teams db s l md tname lid).1).Sorted (fun a b => a.team_id ≤ b.team_id)
      ∧ (crud.get_teams db 0 (N : Int) md tname lid).1
          ++ (crud.get_teams db (N : Int) (N : Int) md tname lid).1
        = (sortedMatching (crud.teamPred md tname lid) (fun t => t.team_id) db.teams).take (2 * N)
      ∧ ((db.teams.map (fun t => t.team_id)).Nodup →
          ∀ x ∈ (crud.get_teams db 0 (N : Int) md tname lid).1,
            x ∉ (crud.get_teams db (N : Int) (N : Int) md tname lid).1)) := by
  refine ⟨⟨listQuery_sorted _ _ _ _ _, listQuery_take_add _ _ _ _,
      fun hnd => listQuery_pages_disjoint _ _ _ _ (List.Nodup.of_map _ hnd)⟩,
    ⟨listQuery_sorted _ _ _ _ _, listQuery_take_add _ _ _ _,
      fun hnd => listQuery_pages_disjoint _ _ _ _ (List.Nodup.of_map _ hnd)⟩,
    ⟨listQuery_sorted _ _ _ _ _, listQuery_take_add _ _ _ _,
      fun hnd => listQuery_pages_disjoint _ _ _ _ (List.Nodup.of_map _ hnd)⟩,
    ⟨listQuery_sorted _ _ _ _ _, listQuery_take_add _ _ _ _,
      fun hnd => listQuery_pages_disjoint _ _ _ _ (List.Nodup.of_map _ hnd)⟩⟩

/-- Witness for C3: with `N = 1` on the example store, the first page's
player (id 1) does not reappear on the second page. -/
theorem list_sorted_pagination_stable_witness :
    (⟨1, "John", "Smith", 5⟩ : Player) ∉ (crud.get_players exampleDb (1 : Int) (1 : Int) none none none).1 :=
  ((list_sorted_pagination_stable exampleDb 1 0 100 none none none none
      none none).1.2.2 (by decide)) ⟨1, "John", "Smith", 5⟩ (by decide)

/-- C4: single-entity lookups return 200 with a body whose id equals the
requested id when the entity exists, a 404 `HTTPException` with detail
"Player not found" / "League not found" when it does not, and no other
error in either case. -/
theorem single_entity_lookup_404 (db : Database) (pid lgid : Int) :
    ((∃ p ∈ db.players, p.player_id = pid) →
        ∃ p, (read_player pid db).1 = HTTPResult.ok p ∧ p.player_id = pid)
    ∧ ((¬ ∃ p ∈ db.players, p.player_id = pid) →
        (read_player pid db).1 = HTTPResult.error ⟨404, "Player not found"⟩)
    ∧ (∀ e, (read_player pid db).1 = HTTPResult.error e →
        e = ⟨404, "Player not found"⟩)
    ∧ ((∃ x ∈ db.leagues, x.league_id = lgid) →
        ∃ x, (read_league lgid db).1 = HTTPResult.ok x ∧ x.league_id = lgid)
    ∧ ((¬ ∃ x ∈ db.leagues, x.league_id = lgid) →
        (read_league lgid db).1 = HTTPResult.error ⟨404, "League not found"⟩)
    ∧ (∀ e, (read_league lgid db).1 = HTTPResult.error e →
        e = ⟨404, "League not found"⟩) := by
  refine ⟨?_, ?_, ?_, ?_, ?_, ?_⟩
  · intro hex
    have hsome : (db.players.find? (fun p => p.player_id == pid)).isSome := by
      rw [List.find?_isSome]
      obtain ⟨p, hp, he⟩ := hex
      exact ⟨p, hp, by simp [he]⟩
    obtain ⟨q, hq⟩ := Option.isSome_iff_exists.mp hsome
    refine ⟨q, ?_, ?_⟩
    · simp [read_player, crud.get_player, hq]
    · have := List.find?_some hq
      simpa using this
  · intro hnone
    have hfind : db.players.find? (fun p => p.player_id == pid) = none := by
      rw [List.find?_eq_none]
      intro x hx hpx
      exact hnone ⟨x, hx, by simpa using hpx⟩
    simp [read_player, crud.get_player, hfind]
  · intro e he
    cases hfind : db.players.find? (fun p => p.player_id == pid) with
    | none =>
      simp only [read_player, crud.get_player, hfind] at he
      exact (HTTPResult.error.inj he).symm
    | some q =>
      simp [read_player, crud.get_player, hfind] at he
  · intro hex
    have hsome : (db.leagues.find? (fun x => x.league_id == lgid)).isSome := by
      rw [List.find?_isSome]
      obtain ⟨x, hx, he⟩ := hex
      exact ⟨x, hx, by simp [he]⟩
    obtain ⟨q, hq⟩ := Option.isSome_iff_exists.mp hsome
    refine ⟨q, ?_, ?_⟩
    · simp [read_league, crud.get_league, hq]
    · have := List.find?_some hq
      simpa using this
  · intro hnone
    have hfind : db.leagues.find? (fun x => x.league_id == lgid) = none := by
      rw [List.find?_eq_none]
      intro x hx hpx
      exact hnone ⟨x, hx, by simpa using hpx⟩
    simp [read_league, crud.get_league, hfind]
  · intro e he
    cases hfind : db.leagues.find? (fun x => x.league_id == lgid) with
    | none =>
      simp only [read_league, crud.get_league, hfind] at he
      exact (HTTPResult.error.inj he).symm
    | some q =>
      simp [read_league, crud.get_league, hfind] at he

/-- Witness for C4: on the example store, looking up the absent player id 99
yields exactly the 404 "Player not found" error. -/
theorem single_entity_lookup_404_witness :
    (read_player 99 exampleDb).1 = HTTPResult.error ⟨404, "Player not found"⟩ :=
  (single_entity_lookup_404 exampleDb 99 101).2.1 (by decide)

/-- C5: for every list operation with `minimum_last_changed_date` provided,
the date filter is an inclusive lower bound: every returned record has
last-changed timestamp ≥ the bound, a record is retained in the matching
set exactly when its timestamp is ≥ the bound and the remaining filters
pass, and on concrete records one with timestamp equal to the bound is
included while one a day earlier is excluded. -/
theorem min_date_inclusive (d : Nat) (db : Database) (s l : Int)
    (fn ln lname tname : Option String) (lid : Option Int) :
    ((∀ p ∈ (crud.get_players db s l (some d) fn ln).1, d ≤ p.last_changed_date)
      ∧ ∀ p ∈ db.players,
          (p ∈ db.players.filter (crud.playerPred (some d) fn ln)
            ↔ (d ≤ p.last_changed_date ∧ crud.playerPred none fn ln p = true)))
    ∧ ((∀ p ∈ (crud.get_performances db s l (some d)).1, d ≤ p.last_changed_date)
      ∧ ∀ p ∈ db.performances,
          (p ∈ db.performances.filter (crud.performancePred (some d))
            ↔ (d ≤ p.last_changed_date ∧ crud.performancePred none p = true)))
    ∧ ((∀ x ∈ (crud.get_leagues db s l (some d) lname).1, d ≤ x.last_changed_date)
      ∧ ∀ x ∈ db.leagues,
          (x ∈ db.leagues.filter (crud.leaguePred (some d) lname)
            ↔ (d ≤ x.last_changed_date ∧ crud.leaguePred none lname x = true)))
    ∧ ((∀ t ∈ (crud.get_teams db s l (some d) tname lid).1, d ≤ t.last_changed_date)
      ∧ ∀ t ∈ db.teams,
          (t ∈ db.teams.filter (crud.teamPred (some d) tname lid)
            ↔ (d ≤ t.last_changed_date ∧ crud.teamPred none tname lid t = true)))
    ∧ (crud.playerPred (some 10) none none ⟨1, "a", "b", 10⟩ = true
      ∧ crud.playerPred (some 10) none none ⟨1, "a", "b", 9⟩ = false) := by
  refine ⟨⟨fun p hp => ((playerPred_some_date_iff d fn ln p).mp
        (pred_of_mem_listQuery hp)).1, ?_⟩,
    ⟨fun p hp => ((performancePred_some_date_iff d p).mp
        (pred_of_mem_listQuery hp)).1, ?_⟩,
    ⟨fun x hx => ((leaguePred_some_date_iff d lname x).mp
        (pred_of_mem_listQuery hx)).1, ?_⟩,
    ⟨fun t ht => ((teamPred_some_date_iff d tname lid t).mp
        (pred_of_mem_listQuery ht)).1, ?_⟩,
    by decide, by decide⟩
  · intro p hp
    rw [List.mem_filter]
    simp only [hp, true_and]
    exact playerPred_some_date_iff d fn ln p
  · intro p hp
    rw [List.mem_filter]
    simp only [hp, true_and]
    exact performancePred_some_date_iff d p
  · intro x hx
    rw [List.mem_filter]
    simp only [hx, true_and]
    exact leaguePred_some_date_iff d lname x
  · intro t ht
    rw [List.mem_filter]
    simp only [ht, true_and]
    exact teamPred_some_date_iff d tname lid t

/-- Witness for C5: with bound 6 on the example store, the returned player
with timestamp 7 indeed satisfies the inclusive bound. -/
theorem min_date_inclusive_witness :
    6 ≤ (⟨3, "Al", "Smith", 7⟩ : Player).last_changed_date :=
  (min_date_inclusive 6 exampleDb 0 100 none none none none none).1.1
    ⟨3, "Al", "Smith", 7⟩ (by decide)

/-- C6: every request wrapped by the `get_db` dependency opens exactly one
store session as its first event and closes it as its last event, on the
normal path and on the exception path alike; in particular the 404 path of
`read_player` still closes the session. -/
theorem session_released_all_paths {α : Type} (handler : Handler α) (db : Database) :
    ((get_db_run handler db).2).head? = some Event.openSession
    ∧ ((get_db_run handler db).2).getLast? = some Event.closeSession
    ∧ ((get_db_run handler db).2).count Event.openSession = 1
    ∧ ((get_db_run handler db).2).count Event.closeSession = 1
    ∧ (get_db_run (read_player 99) exampleDb).2
        = [Event.openSession, Event.query (QueryCall.getPlayer 99), Event.closeSession] := by
  have hlist : (get_db_run handler db).2
      = Event.openSession :: ((handler db).2.map Event.query ++ [Event.closeSession]) := rfl
  have hopen : ∀ qs : List QueryCall, (qs.map Event.query).count Event.openSession = 0 := by
    intro qs
    rw [List.count_eq_zero]
    intro h
    obtain ⟨q, _, hq⟩ := List.mem_map.mp h
    exact Event.noConfusion hq
  have hclose : ∀ qs : List QueryCall, (qs.map Event.query).count Event.closeSession = 0 := by
    intro qs
    rw [List.count_eq_zero]
    intro h
    obtain ⟨q, _, hq⟩ := List.mem_map.mp h
    exact Event.noConfusion hq
  refine ⟨rfl, ?_, ?_, ?_, by decide⟩
  · rw [hlist]
    show ((Event.openSession :: (handler db).2.map Event.query)
        ++ [Event.closeSession]).getLast? = some Event.closeSession
    exact List.getLast?_concat _
  · rw [hlist, List.count_cons]
    simp [hopen]
  · rw [hlist, List.count_cons]
    simp [hclose]

/-- C7: the counts endpoint returns exactly the unfiltered cardinalities of
the league, team and player collections of the current store, as three
natural numbers, issuing exactly the three full-collection count queries. -/
theorem counts_unfiltered_cardinalities (db : Database) :
    (get_count db).1 = HTTPResult.ok ⟨db.leagues.length, db.teams.length, db.players.length⟩
    ∧ (get_count db).2
      = [QueryCall.getLeagueCount, QueryCall.getTeamCount, QueryCall.getPlayerCount] :=
  ⟨rfl, rfl⟩

/-- Counterexample to C8 as stated: the counts endpoint performs three
query-layer calls on a concrete store, not exactly one. -/
theorem one_query_call_counterexample :
    ((get_count exampleDb).2).length = 3 ∧ ((get_count exampleDb).2).length ≠ 1 := by
  decide

/-- C8 (amended): each list and single-entity endpoint performs exactly one
query-layer call per request; the counts endpoint performs exactly three
(one unfiltered count per collection) and the root health check performs
none; there are no side effects beyond these reads. -/
theorem query_calls_per_endpoint (db : Database) (s l pid lgid : Int)
    (md : Option Nat) (fn ln lname tname : Option String) (lid : Option Int) :
    ((read_players s l md fn ln db).2).length = 1
    ∧ ((read_player pid db).2).length = 1
    ∧ ((read_performances s l md db).2).length = 1
    ∧ ((read_league lgid db).2).length = 1
    ∧ ((read_leagues s l md lname db).2).length = 1
    ∧ ((read_teams s l md tname lid db).2).length = 1
    ∧ (get_count db).2
      = [QueryCall.getLeagueCount, QueryCall.getTeamCount, QueryCall.getPlayerCount]
    ∧ root.2 = [] := by
  refine ⟨rfl, ?_, rfl, ?_, rfl, rfl, rfl, rfl⟩
  · cases hfind : db.players.find? (fun p => p.player_id == pid) <;>
      simp [read_player, crud.get_player, hfind]
  · cases hfind : db.leagues.find? (fun x => x.league_id == lgid) <;>
      simp [read_league, crud.get_league, hfind]

/-- C9: the root health-check endpoint returns the constant success payload
and produces no store events at all — no session is acquired and no query
is issued. -/
theorem root_constant_no_store :
    root.1 = { message := "API health check successful" } ∧ root.2 = ([] : List Event) :=
  ⟨rfl, rfl⟩

/-- C10: a negative skip or limit passes the request-parsing boundary (the
declared `skip`/`limit` parameters carry no bound constraints, so validation
accepts every integer) and is forwarded unchanged as the skip/limit argument
of the query-layer call of each list endpoint. -/
theorem negative_skip_limit_forwarded (n m : Int) (hneg : n < 0) :
    validateIntParam skipParam n = Except.ok n
    ∧ validateIntParam limitParam n = Except.ok n
    ∧ ∀ (db : Database) (md : Option Nat) (fn ln lname tname : Option String)
        (lid : Option Int),
        (read_players n m md fn ln db).2 = [QueryCall.getPlayers n m md fn ln]
        ∧ (read_performances n m md db).2 = [QueryCall.getPerformances n m md]
        ∧ (read_leagues n m md lname db).2 = [QueryCall.getLeagues n m md lname]
        ∧ (read_teams n m md tname lid db).2 = [QueryCall.getTeams n m md tname lid] :=
  ⟨rfl, rfl, fun _ _ _ _ _ _ _ => ⟨rfl, rfl, rfl, rfl⟩⟩

/-- Witness for C10: skip `-7` and limit `-5` pass validation and reach the
query layer unchanged on the example store. -/
theorem negative_skip_limit_forwarded_witness :
    (-7 : Int) < 0
    ∧ validateIntParam skipParam (-7) = Except.ok (-7)
    ∧ (read_players (-7) (-5) none none none exampleDb).2
        = [QueryCall.getPlayers (-7) (-5) none none none] :=
  ⟨by decide, (negative_skip_limit_forwarded (-7) (-5) (by decide)).1,
    ((negative_skip_limit_forwarded (-7) (-5) (by decide)).2.2 exampleDb
      none none none none none none).1⟩

end SWC
